import Mathlib

/-!
# Verification of the message-log HTTP service (`app/server.py`)

Shallow embedding of the request-handling and persistence pipeline of
`app/server.py`: routing (`do_GET` / `do_POST` / `do_DELETE` / `do_OPTIONS`),
validation, the SQLite-backed store, and the response envelopes.

Modelling conventions:
* A stored row is a `Row`; the SQLite `messages` table is a `Store`, a list of
  rows kept in rowid (insertion) order, which is the order a full table scan
  returns rows in.
* `timestamp DATETIME DEFAULT CURRENT_TIMESTAMP` produces a `"YYYY-MM-DD
  HH:MM:SS"` text whose lexicographic order agrees with chronological order;
  we model it as a `Nat` (seconds), passed to each create as `now`.
* `json.loads` results are `JsonVal`; a request body is a `RequestBody`
  (`empty` for Content-Length 0, `malformed` for a `json.JSONDecodeError`,
  `json v` for a successful parse).
* Python dynamic-typing failures (`TypeError` from `in`/subscript on a
  non-container, `AttributeError` from `.strip()` on a non-string) are the
  `.error` branch of `Except String`; `handle_create_message` catches them in
  its `except Exception` clause and renders a 500. The carried strings
  approximate CPython's exception text; no claim depends on their exact value.
* `id INTEGER PRIMARY KEY` is a rowid alias without AUTOINCREMENT: an INSERT
  omitting `id` assigns one more than the largest rowid currently in the
  table (1 when the table is empty). That is `nextId`.
-/

/-- Result of `json.loads`: a Python value decoded from JSON.
Numbers are modelled as integers (no claim involves fractional numbers). -/
inductive JsonVal where
  | null : JsonVal
  | bool (b : Bool) : JsonVal
  | num (n : Int) : JsonVal
  | str (s : String) : JsonVal
  | arr (xs : List JsonVal) : JsonVal
  | obj (fields : List (String × JsonVal)) : JsonVal

/-- Python truthiness (`bool(v)`) of a decoded JSON value. -/
def JsonVal.truthy : JsonVal → Bool
  | .null => false
  | .bool b => b
  | .num n => n != 0
  | .str s => s != ""
  | .arr xs => !xs.isEmpty
  | .obj fs => !fs.isEmpty

/-- Whether `needle` occurs as a contiguous substring of `hay`
(Python's `needle in hay` for strings). -/
def charsContain (needle : List Char) : List Char → Bool
  | [] => needle.isEmpty
  | c :: t => needle.isPrefixOf (c :: t) || charsContain needle t

/-- Python's `key in data` for a decoded JSON value `data`: key lookup for a
dict, element membership for a list, substring test for a string, and a
`TypeError` ("argument of type ... is not iterable") otherwise. -/
def pyContains (v : JsonVal) (key : String) : Except String Bool :=
  match v with
  | .obj fs => .ok (fs.any (fun f => f.1 == key))
  | .arr xs => .ok (xs.any (fun x => match x with | .str s => s == key | _ => false))
  | .str s => .ok (charsContain key.data s.data)
  | _ => .error "argument of type is not iterable"

/-- Python's `data[key]` with a string key: dict lookup, `TypeError` for any
other decoded JSON value (list/str indices must be integers; int/bool/null
are not subscriptable). The `.error` for a missing dict key models the
`KeyError`, unreachable in the handler because `key in data` is checked
first. -/
def pyGet (v : JsonVal) (key : String) : Except String JsonVal :=
  match v with
  | .obj fs =>
    match fs.find? (fun f => f.1 == key) with
    | some f => .ok f.2
    | none => .error "KeyError"
  | _ => .error "indices must be integers"

/-- `VALID_TYPES = {"insight", "decision", "observation"}` from the source. -/
def validTypes : List String := ["insight", "decision", "observation"]

/-- Python's `message_type not in VALID_TYPES` branch outcome: `.error` is the
`TypeError` for an unhashable value (list/dict), `.ok (some s)` means the
value is the string `s` and is in the set, `.ok none` means it is hashable
but not in the set (only strings can equal the set's elements). -/
def pySetMember (v : JsonVal) : Except String (Option String) :=
  match v with
  | .arr _ => .error "unhashable type"
  | .obj _ => .error "unhashable type"
  | .str s => .ok (if validTypes.contains s then some s else none)
  | _ => .ok none

/-- The characters Python's `str.strip()` removes (ASCII whitespace; the
unicode whitespace Python also strips does not occur in any claim). -/
def isPyWhitespace (c : Char) : Bool :=
  c == ' ' || c == '\t' || c == '\n' || c == '\r' || c == '\x0b' || c == '\x0c'

/-- Whether `s.strip()` is empty, i.e. `s` is all whitespace (or empty). -/
def pyStripEmpty (s : String) : Bool := s.data.all isPyWhitespace

/-- Outcome of `if not content or not content.strip()`: `.ok none` means the
empty-content branch is taken, `.ok (some s)` means `content` is the string
`s`, truthy and not all-whitespace, and the handler proceeds to the INSERT;
`.error` is the `AttributeError` when `.strip()` is called on a truthy
non-string. -/
def checkContent (v : JsonVal) : Except String (Option String) :=
  if v.truthy = false then .ok none
  else
    match v with
    | .str s => if pyStripEmpty s then .ok none else .ok (some s)
    | _ => .error "object has no attribute strip"

/-- Python `int(s)`: digits after the first may be separated by single
underscores (`int("1_0") = 10`); no digit before/after an underscore, or a
non-digit anywhere, raises `ValueError` (`none`). -/
def pyIntRest : List Char → Nat → Option Nat
  | [], acc => some acc
  | '_' :: c :: cs, acc =>
    if c.isDigit then pyIntRest cs (acc * 10 + (c.toNat - '0'.toNat)) else none
  | ['_'], _ => none
  | c :: cs, acc =>
    if c.isDigit then pyIntRest cs (acc * 10 + (c.toNat - '0'.toNat)) else none

/-- Parse a nonempty digit sequence (the part of `int(s)` after the sign). -/
def pyIntStart : List Char → Option Nat
  | [] => none
  | c :: cs => if c.isDigit then pyIntRest cs (c.toNat - '0'.toNat) else none

/-- The signed part of Python `int(s)`: one optional `+`/`-` then digits. -/
def pyIntOfChars : List Char → Option Int
  | '+' :: cs => (pyIntStart cs).map Int.ofNat
  | '-' :: cs => (pyIntStart cs).map (fun n => -(n : Int))
  | cs => (pyIntStart cs).map Int.ofNat

/-- Python `int(s)` on a string: surrounding whitespace is allowed, then an
optional sign and a digit sequence. `none` models the `ValueError`. -/
def pyInt (s : String) : Option Int :=
  pyIntOfChars (((s.data.dropWhile isPyWhitespace).reverse.dropWhile isPyWhitespace).reverse)

/-- One stored row of the `messages` table
(`id INTEGER PRIMARY KEY, content TEXT NOT NULL, type TEXT NOT NULL,
timestamp DATETIME DEFAULT CURRENT_TIMESTAMP`). -/
structure Row where
  id : Nat
  content : String
  type : String
  timestamp : Nat
deriving Repr, DecidableEq

/-- The `messages` table, rows in rowid order (the order of insertion and of a
full table scan). -/
abbrev Store := List Row

/-- The rowid SQLite assigns to an INSERT that omits `id`: one more than the
largest rowid currently in the table, 1 for an empty table. Without
AUTOINCREMENT there is no high-water mark, so only the rows currently
present matter. -/
def nextId (s : Store) : Nat := (s.map Row.id).foldr max 0 + 1

/-- Insert a row into a list already sorted by timestamp descending, placing
it after every row with a strictly greater timestamp and before any row
with an equal or smaller one. -/
def insertDesc (r : Row) : List Row → List Row
  | [] => [r]
  | x :: xs => if r.timestamp < x.timestamp then x :: insertDesc r xs else r :: x :: xs

/-- `SELECT ... ORDER BY timestamp DESC`, modelled as a stable sort of the
table-scan order: the query names no secondary sort key, so rows with equal
timestamps come out in the scan's rowid order. -/
def sortByTsDesc : List Row → List Row
  | [] => []
  | x :: xs => insertDesc x (sortByTsDesc xs)

/-- A decoded request body as `handle_create_message` sees it: Content-Length
zero, a `json.JSONDecodeError`, or the decoded value. -/
inductive RequestBody where
  | empty : RequestBody
  | malformed : RequestBody
  | json (v : JsonVal) : RequestBody

/-- A rendered HTTP response. `json` is `send_json_response` (the body is the
serialized value, with `Content-Type: application/json` and CORS headers);
`noContent` is the header-only OPTIONS reply; `staticFile` is a request
delegated to the stdlib file server (status decided there, not modelled);
`frameworkError` is the HTML error page `http.server` itself sends, e.g.
the 501 for a method with no `do_`-handler. -/
inductive HttpResponse where
  | json (status : Nat) (body : JsonVal) : HttpResponse
  | noContent (status : Nat) : HttpResponse
  | staticFile (path : String) : HttpResponse
  | frameworkError (status : Nat) (message : String) : HttpResponse

/-- The status line of a response; 0 for a delegated static-file response,
whose status the file server decides. -/
def HttpResponse.statusOf : HttpResponse → Nat
  | .json st _ => st
  | .noContent st => st
  | .staticFile _ => 0
  | .frameworkError st _ => st

/-- `send_error_response(message, status)`: the `{"error": message}` envelope. -/
def errResp (message : String) (status : Nat) : HttpResponse :=
  .json status (.obj [("error", .str message)])

/-- The 500 envelope from the `except Exception` clause:
`Internal server error: {str(e)}`. -/
def internalErr (e : String) : HttpResponse :=
  errResp ("Internal server error: " ++ e) 500

/-- `row_to_dict` of a fetched row, as serialized into responses. The wire
timestamp is the SQLite datetime text; its numeric model stands in for it. -/
def rowJson (r : Row) : JsonVal :=
  .obj [("id", .num r.id), ("content", .str r.content),
        ("type", .str r.type), ("timestamp", .num r.timestamp)]

/-- The effective limit of `handle_get_messages`: 200 when the `limit`
parameter is absent (`parse_qs` also drops `limit=` with an empty value),
200 when `int(...)` raises `ValueError`, 200 when the parsed value is
below 1, and the parsed value itself otherwise. `q` is the first value of
the `limit` key after `parse_qs`. -/
def effectiveLimit (q : Option String) : Int :=
  match q with
  | none => 200
  | some s =>
    match pyInt s with
    | none => 200
    | some n => if n < 1 then 200 else n

/-- The rows `handle_get_messages` returns:
`SELECT id, content, type, timestamp FROM messages ORDER BY timestamp DESC
LIMIT ?` with the effective limit. -/
def listRows (q : Option String) (s : Store) : List Row :=
  (sortByTsDesc s).take (effectiveLimit q).toNat

/-- `handle_get_messages`: the `{"messages": [...]}` envelope, status 200. -/
def handle_get_messages (q : Option String) (s : Store) : HttpResponse :=
  .json 200 (.obj [("messages", .arr ((listRows q s).map rowJson))])

/-- The error text of the invalid-type branch. CPython iterates the set in an
unspecified (hash-seed-dependent) order when joining; no claim depends on
the order, so the source's literal order is used. -/
def typeErrMsg : String :=
  "'type' must be one of: insight, decision, observation"

/-- `handle_create_message`, from reading the body to the 201 (or error)
response. The source re-SELECTs the inserted row by `cursor.lastrowid` and
serializes that row; the row appended here is exactly that record. -/
def handle_create_message (body : RequestBody) (now : Nat) (s : Store) :
    HttpResponse × Store :=
  match body with
  | .empty => (errResp "Request body is required" 400, s)
  | .malformed => (errResp "Invalid JSON in request body" 400, s)
  | .json data =>
    match pyContains data "content" with
    | .error e => (internalErr e, s)
    | .ok false => (errResp "'content' field is required" 400, s)
    | .ok true =>
      match pyContains data "type" with
      | .error e => (internalErr e, s)
      | .ok false => (errResp "'type' field is required" 400, s)
      | .ok true =>
        match pyGet data "type" with
        | .error e => (internalErr e, s)
        | .ok messageType =>
          match pySetMember messageType with
          | .error e => (internalErr e, s)
          | .ok none => (errResp typeErrMsg 400, s)
          | .ok (some ty) =>
            match pyGet data "content" with
            | .error e => (internalErr e, s)
            | .ok contentVal =>
              match checkContent contentVal with
              | .error e => (internalErr e, s)
              | .ok none => (errResp "'content' cannot be empty" 400, s)
              | .ok (some c) =>
                let row : Row := ⟨nextId s, c, ty, now⟩
                (.json 201 (rowJson row), s ++ [row])

/-- `handle_delete_message`: SELECT the id, 404 if absent, else DELETE the
row and answer `{"deleted": id}`. -/
def handle_delete_message (n : Nat) (s : Store) : HttpResponse × Store :=
  if s.any (fun r => r.id == n) then
    (.json 200 (.obj [("deleted", .num n)]), s.filter (fun r => r.id != n))
  else
    (errResp "Message not found" 404, s)

/-- `handle_clear_messages`: COUNT the rows, DELETE them all, answer
`{"deleted_count": count}`. -/
def handle_clear_messages (s : Store) : HttpResponse × Store :=
  (.json 200 (.obj [("deleted_count", .num s.length)]), [])

/-- The `re.match(r"^/messages/(\d+)$", path)` route of `do_DELETE`: the rest
of the path after `/messages/` must be one or more digits; `int` of that
digit string is the id. (Python's `\d` also matches non-ASCII decimal
digits; no claim exercises those.) -/
def matchMsgId (p : String) : Option Nat :=
  if "/messages/".isPrefixOf p then
    let rest := p.drop 10
    if rest.length > 0 && rest.data.all Char.isDigit then
      some (rest.foldl (fun n c => n * 10 + (c.toNat - '0'.toNat)) 0)
    else none
  else none

/-- The full dispatch of `MessageHandler`, including the inherited behavior of
`http.server`: `do_OPTIONS`/`do_GET`/`do_POST`/`do_DELETE` are defined in
the source, `do_HEAD` is inherited from `SimpleHTTPRequestHandler` (serves
the path as a static file), and any other method makes
`BaseHTTPRequestHandler` send its own 501 "Unsupported method" HTML error.
`path` and `query` are the `urlparse` components of the request target. -/
def dispatch (method path : String) (query : Option String) (body : RequestBody)
    (now : Nat) (s : Store) : HttpResponse × Store :=
  if method == "OPTIONS" then (.noContent 200, s)
  else if method == "GET" then
    if path == "/messages" then (handle_get_messages query s, s)
    else if "/static/".isPrefixOf path || path == "/" then
      (.staticFile (if path == "/" then "/index.html" else path), s)
    else (errResp "Not found" 404, s)
  else if method == "POST" then
    if path == "/messages" then handle_create_message body now s
    else (errResp "Not found" 404, s)
  else if method == "DELETE" then
    match matchMsgId path with
    | some n => handle_delete_message n s
    | none =>
      if path == "/messages" then handle_clear_messages s
      else (errResp "Not found" 404, s)
  else if method == "HEAD" then (.staticFile path, s)
  else (.frameworkError 501 ("Unsupported method (" ++ method ++ ")"), s)

/-- Whether a decoded JSON value is an object (a Python dict). -/
def JsonVal.isObj : JsonVal → Bool
  | .obj _ => true
  | _ => false

/-- The error string of an `{"error": ...}` envelope, if the response is one. -/
def errMsgOf : HttpResponse → Option String
  | .json _ (.obj [("error", .str m)]) => some m
  | _ => none

/-- The ordering the code's query actually produces: timestamps descending,
rows with equal timestamps in id-ascending (scan) order. -/
def codeOrder (a b : Row) : Prop :=
  b.timestamp < a.timestamp ∨ (a.timestamp = b.timestamp ∧ a.id < b.id)

/-- The ordering the claim asserts: timestamps descending, ties broken by id
descending. -/
def specClaimOrder (a b : Row) : Prop :=
  b.timestamp < a.timestamp ∨ (a.timestamp = b.timestamp ∧ b.id < a.id)

instance : DecidableRel codeOrder := by
  intro a b
  unfold codeOrder
  infer_instance

instance : DecidableRel specClaimOrder := by
  intro a b
  unfold specClaimOrder
  infer_instance

theorem insertDesc_perm (r : Row) (l : List Row) : (insertDesc r l).Perm (r :: l) := by
  induction l with
  | nil => simp [insertDesc]
  | cons x xs ih =>
    by_cases h : r.timestamp < x.timestamp
    · simp only [insertDesc, if_pos h]
      exact (ih.cons x).trans (List.Perm.swap r x xs)
    · simp [insertDesc, if_neg h]

theorem sortByTsDesc_perm (l : List Row) : (sortByTsDesc l).Perm l := by
  induction l with
  | nil => simp [sortByTsDesc]
  | cons x xs ih =>
    exact (insertDesc_perm x (sortByTsDesc xs)).trans (ih.cons x)

theorem mem_sortByTsDesc {a : Row} {l : List Row} :
    a ∈ sortByTsDesc l ↔ a ∈ l :=
  (sortByTsDesc_perm l).mem_iff

theorem length_sortByTsDesc (l : List Row) :
    (sortByTsDesc l).length = l.length :=
  (sortByTsDesc_perm l).length_eq

/-- A row whose timestamp strictly exceeds every timestamp in the table sorts
to the front. -/
theorem sortByTsDesc_append_recent (r : Row) (l : List Row)
    (h : ∀ b ∈ l, b.timestamp < r.timestamp) :
    sortByTsDesc (l ++ [r]) = r :: sortByTsDesc l := by
  induction l with
  | nil => simp [sortByTsDesc, insertDesc]
  | cons x xs ih =>
    have hx : x.timestamp < r.timestamp := h x (List.mem_cons_self x xs)
    have step : sortByTsDesc ((x :: xs) ++ [r]) =
        insertDesc x (sortByTsDesc (xs ++ [r])) := rfl
    rw [step, ih (fun b hb => h b (List.mem_cons_of_mem x hb))]
    simp [sortByTsDesc, insertDesc, if_pos hx]

theorem pairwise_insertDesc (r : Row) (l : List Row)
    (hsort : l.Pairwise codeOrder) (hid : ∀ b ∈ l, r.id < b.id) :
    (insertDesc r l).Pairwise codeOrder := by
  induction l with
  | nil => simp [insertDesc]
  | cons x xs ih =>
    rcases List.pairwise_cons.mp hsort with ⟨hx, hxs⟩
    by_cases h : r.timestamp < x.timestamp
    · simp only [insertDesc, if_pos h]
      refine List.pairwise_cons.mpr ⟨?_, ih hxs (fun b hb => hid b (List.mem_cons_of_mem x hb))⟩
      intro b hb
      have hmem : b = r ∨ b ∈ xs := by
        simpa using (insertDesc_perm r xs).mem_iff.mp hb
      rcases hmem with rfl | hbxs
      · exact Or.inl h
      · exact hx b hbxs
    · simp only [insertDesc, if_neg h]
      push_neg at h
      refine List.pairwise_cons.mpr ⟨?_, hsort⟩
      intro b hb
      have hble : b.timestamp ≤ r.timestamp := by
        rcases List.mem_cons.mp hb with rfl | hbxs
        · exact h
        · rcases hx b hbxs with h1 | h1
          · exact le_trans (le_of_lt h1) h
          · exact h1.1 ▸ h
      rcases lt_or_eq_of_le hble with hlt | heq
      · exact Or.inl hlt
      · exact Or.inr ⟨heq.symm, hid b hb⟩

/-- Stability: when the scan order has strictly increasing ids (the invariant
every reachable table satisfies), the sorted output is pairwise in
`codeOrder` — timestamps descending, ties in ascending id order. -/
theorem pairwise_sortByTsDesc (l : List Row)
    (h : l.Pairwise (fun a b => a.id < b.id)) :
    (sortByTsDesc l).Pairwise codeOrder := by
  induction l with
  | nil => simp [sortByTsDesc]
  | cons x xs ih =>
    rcases List.pairwise_cons.mp h with ⟨hx, hxs⟩
    exact pairwise_insertDesc x (sortByTsDesc xs) (ih hxs)
      (fun b hb => hx b (mem_sortByTsDesc.mp hb))

theorem le_foldr_max (a : Nat) (l : List Nat) (h : a ∈ l) : a ≤ l.foldr max 0 := by
  induction l with
  | nil => cases h
  | cons x xs ih =>
    rcases List.mem_cons.mp h with rfl | h2
    · exact le_max_left _ _
    · exact le_trans (ih h2) (le_max_right _ _)

/-- The id SQLite assigns to the next INSERT exceeds every id currently in the
table. -/
theorem nextId_gt {r : Row} {s : Store} (h : r ∈ s) : r.id < nextId s := by
  have : r.id ∈ s.map Row.id := List.mem_map_of_mem Row.id h
  exact Nat.lt_succ_of_le (le_foldr_max r.id (s.map Row.id) this)

theorem any_of_find?_eq_some {α : Type} {p : α → Bool} {l : List α} {x : α}
    (h : l.find? p = some x) : l.any p = true :=
  List.any_eq_true.mpr ⟨x, List.mem_of_find?_eq_some h, List.find?_some h⟩

/-- The two-field JSON object body `{"content": c, "type": ty}`. -/
def mkBody (c ty : String) : RequestBody :=
  .json (.obj [("content", .str c), ("type", .str ty)])

/-- A sample table used to instantiate universally quantified statements. -/
def demoStore : Store := [⟨1, "a", "insight", 3⟩, ⟨2, "b", "decision", 7⟩]

/-- A create whose body is a JSON object carrying a string `content` that is
truthy and not all-whitespace and a string `type` in `VALID_TYPES` reaches
the INSERT: the response is the 201 with the stored row, and the row —
with the SQLite-assigned id and timestamp — is appended to the table. -/
theorem create_success (fields : List (String × JsonVal)) (c ty : String)
    (now : Nat) (s : Store)
    (hcF : pyGet (.obj fields) "content" = .ok (.str c))
    (htF : pyGet (.obj fields) "type" = .ok (.str ty))
    (hc : pyStripEmpty c = false)
    (hty : ty ∈ validTypes) :
    handle_create_message (.json (.obj fields)) now s =
      (.json 201 (rowJson ⟨nextId s, c, ty, now⟩), s ++ [⟨nextId s, c, ty, now⟩]) := by
  have hcne : (c != "") = true := by
    rcases eq_or_ne c "" with rfl | h
    · simp [pyStripEmpty] at hc
    · simp [h]
  have h1 : pyContains (.obj fields) "content" = .ok true := by
    cases hf : fields.find? (fun f => f.1 == "content") with
    | none => simp [pyGet, hf] at hcF
    | some f => simp [pyContains, any_of_find?_eq_some hf]
  have h2 : pyContains (.obj fields) "type" = .ok true := by
    cases hf : fields.find? (fun f => f.1 == "type") with
    | none => simp [pyGet, hf] at htF
    | some f => simp [pyContains, any_of_find?_eq_some hf]
  have h3 : pySetMember (.str ty) = .ok (some ty) := by
    simp [pySetMember, hty]
  have h4 : checkContent (.str c) = .ok (some c) := by
    simp [checkContent, JsonVal.truthy, hcne, hc]
  simp only [handle_create_message, h1, h2, htF, h3, hcF, h4]

/-- C1 (amended): the rows returned by a list request are ordered by
timestamp descending, and rows with equal timestamps appear in the scan's
id-ascending (insertion) order — the query has no id tie-break, so the
order among ties is the storage order, not id descending. Hypothesis: the
table's scan order has strictly increasing ids, as every reachable table
does. -/
theorem claim1_theorem (q : Option String) (s : Store)
    (h : s.Pairwise (fun a b => a.id < b.id)) :
    (listRows q s).Pairwise codeOrder :=
  List.Pairwise.sublist (List.take_sublist _ _) (pairwise_sortByTsDesc s h)

theorem claim1_witness :
    (listRows none demoStore).Pairwise codeOrder :=
  claim1_theorem none demoStore (by decide)

/-- C1 is refuted as stated: creating two messages within the store's one-
second time resolution (equal timestamps 5) and listing returns them in
id-ascending order `[1, 2]`, not the claimed id-descending order. -/
theorem claim1_counterexample :
    (handle_create_message (mkBody "b" "insight") 5
        ((handle_create_message (mkBody "a" "insight") 5 []).2)).2 =
      [⟨1, "a", "insight", 5⟩, ⟨2, "b", "insight", 5⟩]
    ∧ (listRows none [⟨1, "a", "insight", 5⟩, ⟨2, "b", "insight", 5⟩]).map Row.id = [1, 2]
    ∧ ¬ (listRows none [⟨1, "a", "insight", 5⟩, ⟨2, "b", "insight", 5⟩]).Pairwise specClaimOrder := by
  refine ⟨by decide, by decide, by decide⟩

/-- C2 (amended): the id a successful create assigns is strictly greater than
every id currently in the table — so ids stay unique: a store whose scan
order has strictly increasing ids still does after the create — but only
the live rows matter: with `INTEGER PRIMARY KEY` and no AUTOINCREMENT,
deleting the largest-id row lets the next create reuse that id. -/
theorem claim2_theorem (s : Store) (now : Nat) (c ty : String)
    (hc : pyStripEmpty c = false) (hty : ty ∈ validTypes)
    (hinc : s.Pairwise (fun a b => a.id < b.id)) :
    (handle_create_message (mkBody c ty) now s).2 = s ++ [⟨nextId s, c, ty, now⟩]
    ∧ (∀ r ∈ s, r.id < nextId s)
    ∧ ((handle_create_message (mkBody c ty) now s).2).Pairwise
        (fun a b => a.id < b.id) := by
  have hcreate := create_success [("content", .str c), ("type", .str ty)] c ty now s
    rfl rfl hc hty
  refine ⟨?_, fun r hr => nextId_gt hr, ?_⟩
  · rw [mkBody, hcreate]
  · rw [mkBody, hcreate]
    refine List.pairwise_append.mpr ⟨hinc, List.pairwise_singleton _ _, ?_⟩
    intro a ha b hb
    rcases List.mem_singleton.mp hb with rfl
    exact nextId_gt ha

theorem claim2_witness :
    (handle_create_message (mkBody "hello" "decision") 9 demoStore).2 =
      demoStore ++ [⟨nextId demoStore, "hello", "decision", 9⟩]
    ∧ (⟨1, "a", "insight", 3⟩ : Row).id < nextId demoStore
    ∧ ((handle_create_message (mkBody "hello" "decision") 9 demoStore).2).Pairwise
        (fun a b => a.id < b.id) := by
  have h := claim2_theorem demoStore 9 "hello" "decision" (by decide) (by decide) (by decide)
  exact ⟨h.1, h.2.1 _ (by decide), h.2.2⟩

/-- C2 is refuted as stated: create a message (it gets id 1), delete it, and
create again — the second create assigns id 1 a second time, because the
schema's `INTEGER PRIMARY KEY` without AUTOINCREMENT makes SQLite pick one
more than the largest rowid still in the (now empty) table. The id is
reused, not strictly greater than every previously assigned id. -/
theorem claim2_counterexample :
    (handle_create_message (mkBody "a" "insight") 0 []).2 = [⟨1, "a", "insight", 0⟩]
    ∧ (handle_delete_message 1 [⟨1, "a", "insight", 0⟩]).2 = []
    ∧ (handle_delete_message 1 [⟨1, "a", "insight", 0⟩]).1.statusOf = 200
    ∧ (handle_create_message (mkBody "b" "insight") 1 []).2 = [⟨1, "b", "insight", 1⟩] := by
  refine ⟨by decide, by decide, by decide, by decide⟩

/-- C3 (amended): for the methods that have a `do_`-handler and are not
OPTIONS or HEAD — i.e. GET, POST, DELETE — every path that matches no
defined route (not `/messages`, not a `/messages/{digits}` delete target,
and not a static-asset path) yields status 404 with the JSON error
envelope and leaves the store unchanged; but a request with any other
method is answered by `http.server` itself with a 501 "Unsupported
method" HTML error, not a 404 JSON envelope (OPTIONS always yields 200,
and HEAD is delegated to the static file server). -/
theorem claim3_theorem (method path : String) (query : Option String)
    (body : RequestBody) (now : Nat) (s : Store)
    (hpath : path ≠ "/messages") (hid : matchMsgId path = none)
    (hstatic : "/static/".isPrefixOf path = false) (hroot : path ≠ "/")
    (hopts : method ≠ "OPTIONS") (hhead : method ≠ "HEAD") :
    dispatch method path query body now s =
      if method = "GET" ∨ method = "POST" ∨ method = "DELETE"
      then (errResp "Not found" 404, s)
      else (.frameworkError 501 ("Unsupported method (" ++ method ++ ")"), s) := by
  by_cases hg : method = "GET"
  · subst hg
    simp [dispatch, hpath, hstatic, hroot]
  · by_cases hp : method = "POST"
    · subst hp
      simp [dispatch, hpath]
    · by_cases hd : method = "DELETE"
      · subst hd
        simp [dispatch, hpath, hid]
      · simp [dispatch, hopts, hhead, hg, hp, hd]

theorem claim3_witness :
    dispatch "PUT" "/foo" none .empty 0 [] =
      (if ("PUT" : String) = "GET" ∨ ("PUT" : String) = "POST" ∨ ("PUT" : String) = "DELETE"
       then (errResp "Not found" 404, ([] : Store))
       else (.frameworkError 501 ("Unsupported method (" ++ "PUT" ++ ")"), ([] : Store))) :=
  claim3_theorem "PUT" "/foo" none .empty 0 []
    (by decide) (by decide) (by decide) (by decide) (by decide) (by decide)

/-- C3 is refuted as stated: `PUT /messages` is not one of the defined
routes, yet the response is the framework's 501 "Unsupported method" HTML
error, not a 404 JSON error envelope. -/
theorem claim3_counterexample :
    dispatch "PUT" "/messages" none .empty 0 [] =
      (.frameworkError 501 ("Unsupported method (" ++ "PUT" ++ ")"), [])
    ∧ (dispatch "PUT" "/messages" none .empty 0 []).1.statusOf = 501
    ∧ (dispatch "PUT" "/messages" none .empty 0 []).1.statusOf ≠ 404
    ∧ errMsgOf (dispatch "PUT" "/messages" none .empty 0 []).1 = none := by
  refine ⟨rfl, rfl, by decide, rfl⟩

/-- C4 (amended): a body that is not parseable as JSON at all yields the
InvalidJson 400 (`{"error": "Invalid JSON in request body"}`) with the
store unchanged; but a body that parses as JSON without being an object
is not rejected as InvalidJson: it yields a 400 MissingField /
empty-content error or a 500 TypeError envelope, depending on the value —
the store unchanged in every such case. -/
theorem claim4_theorem (now : Nat) (s : Store) :
    handle_create_message .malformed now s =
      (errResp "Invalid JSON in request body" 400, s)
    ∧ ∀ v : JsonVal, v.isObj = false →
        (handle_create_message (.json v) now s).2 = s
        ∧ ((handle_create_message (.json v) now s).1.statusOf = 400
           ∨ (handle_create_message (.json v) now s).1.statusOf = 500) := by
  refine ⟨rfl, ?_⟩
  intro v hv
  cases v with
  | null => exact ⟨rfl, Or.inr rfl⟩
  | bool b => exact ⟨rfl, Or.inr rfl⟩
  | num n => exact ⟨rfl, Or.inr rfl⟩
  | obj fs => simp [JsonVal.isObj] at hv
  | str t =>
    cases hc : charsContain "content".data t.data with
    | false =>
      constructor
      · simp [handle_create_message, pyContains, hc]
      · exact Or.inl (by simp [handle_create_message, pyContains, hc, errResp,
          HttpResponse.statusOf])
    | true =>
      cases ht : charsContain "type".data t.data with
      | false =>
        constructor
        · simp [handle_create_message, pyContains, hc, ht]
        · exact Or.inl (by simp [handle_create_message, pyContains, hc, ht, errResp,
            HttpResponse.statusOf])
      | true =>
        constructor
        · simp [handle_create_message, pyContains, pyGet, hc, ht]
        · exact Or.inr (by simp [handle_create_message, pyContains, pyGet, hc, ht,
            internalErr, errResp, HttpResponse.statusOf])
  | arr xs =>
    cases hc : xs.any (fun x => match x with | .str u => u == "content" | _ => false) with
    | false =>
      constructor
      · simp [handle_create_message, pyContains, hc]
      · exact Or.inl (by simp [handle_create_message, pyContains, hc, errResp,
          HttpResponse.statusOf])
    | true =>
      cases ht : xs.any (fun x => match x with | .str u => u == "type" | _ => false) with
      | false =>
        constructor
        · simp [handle_create_message, pyContains, hc, ht]
        · exact Or.inl (by simp [handle_create_message, pyContains, hc, ht, errResp,
            HttpResponse.statusOf])
      | true =>
        constructor
        · simp [handle_create_message, pyContains, pyGet, hc, ht]
        · exact Or.inr (by simp [handle_create_message, pyContains, pyGet, hc, ht,
            internalErr, errResp, HttpResponse.statusOf])

theorem claim4_witness :
    handle_create_message .malformed 0 demoStore =
      (errResp "Invalid JSON in request body" 400, demoStore)
    ∧ ((handle_create_message (.json (.arr [])) 0 demoStore).2 = demoStore
       ∧ ((handle_create_message (.json (.arr [])) 0 demoStore).1.statusOf = 400
          ∨ (handle_create_message (.json (.arr [])) 0 demoStore).1.statusOf = 500)) :=
  ⟨(claim4_theorem 0 demoStore).1, (claim4_theorem 0 demoStore).2 (.arr []) rfl⟩

/-- C4 is refuted as stated: the body `[]` parses as JSON but not as a JSON
object, and the response is the 400 `'content' field is required`
(MissingField), not the InvalidJson error — Python's `"content" in []`
succeeds and returns `False`, so the object-ness is never checked. -/
theorem claim4_counterexample :
    handle_create_message (.json (.arr [])) 0 [] =
      (errResp "'content' field is required" 400, [])
    ∧ errMsgOf (handle_create_message (.json (.arr [])) 0 []).1 =
        some "'content' field is required"
    ∧ some "'content' field is required" ≠ some "Invalid JSON in request body" := by
  refine ⟨rfl, rfl, by decide⟩

/-- C5 (confirmed): the number of rows a list request returns is capped by the
effective limit, and the effective limit is 200 when the `limit`
parameter is absent, when `int()` fails on it, or when the parsed value
is below 1; otherwise it is exactly the parsed value, with no upper cap. -/
theorem claim5_theorem (q : Option String) (s : Store) :
    (listRows q s).length = min (effectiveLimit q).toNat s.length
    ∧ effectiveLimit none = 200
    ∧ (∀ t : String, pyInt t = none → effectiveLimit (some t) = 200)
    ∧ (∀ (t : String) (n : Int), pyInt t = some n → n < 1 →
        effectiveLimit (some t) = 200)
    ∧ (∀ (t : String) (n : Int), pyInt t = some n → 1 ≤ n →
        effectiveLimit (some t) = n) := by
  refine ⟨?_, rfl, ?_, ?_, ?_⟩
  · rw [listRows, List.length_take, length_sortByTsDesc]
  · intro t ht
    simp [effectiveLimit, ht]
  · intro t n ht hn
    simp [effectiveLimit, ht, hn]
  · intro t n ht hn
    simp [effectiveLimit, ht, not_lt.mpr hn]

theorem claim5_witness :
    (listRows (some "3") demoStore).length =
      min (effectiveLimit (some "3")).toNat demoStore.length
    ∧ effectiveLimit none = 200
    ∧ effectiveLimit (some "abc") = 200
    ∧ effectiveLimit (some "0") = 200
    ∧ effectiveLimit (some "500") = 500 := by
  have h := claim5_theorem (some "3") demoStore
  exact ⟨h.1, h.2.1, h.2.2.1 "abc" (by decide), h.2.2.2.1 "0" 0 (by decide) (by decide),
    h.2.2.2.2 "500" 500 (by decide) (by decide)⟩

/-- C7 (confirmed): a clear request on a table of N rows reports
`{"deleted_count": N}` with status 200, removes all N rows, and a
subsequent list returns the empty sequence. -/
theorem claim7_theorem (s : Store) (q : Option String) :
    handle_clear_messages s =
      (.json 200 (.obj [("deleted_count", .num (s.length : Int))]), [])
    ∧ (handle_clear_messages s).2 = []
    ∧ listRows q (handle_clear_messages s).2 = [] := by
  refine ⟨rfl, rfl, ?_⟩
  simp [handle_clear_messages, listRows, sortByTsDesc]

/-- C6 (confirmed): a delete-one request for id `n` on a table containing a
row with that id answers `200 {"deleted": n}` and the table afterwards
holds exactly the rows whose id differs from `n` (so a subsequent list
excludes id `n`, and repeating the same delete answers the 404 with the
table unchanged); on a table with no row of id `n` it answers
`404 {"error": "Message not found"}` and changes nothing. -/
theorem claim6_theorem (n : Nat) (s : Store) (q : Option String) :
    ((∃ r ∈ s, r.id = n) →
      (handle_delete_message n s).1 = .json 200 (.obj [("deleted", .num (n : Int))])
      ∧ (∀ r : Row, r ∈ (handle_delete_message n s).2 ↔ r ∈ s ∧ r.id ≠ n)
      ∧ (∀ r ∈ listRows q (handle_delete_message n s).2, r.id ≠ n)
      ∧ handle_delete_message n (handle_delete_message n s).2 =
          (errResp "Message not found" 404, (handle_delete_message n s).2))
    ∧ ((¬ ∃ r ∈ s, r.id = n) →
      handle_delete_message n s = (errResp "Message not found" 404, s)) := by
  have hany : s.any (fun r => r.id == n) = true ↔ ∃ r ∈ s, r.id = n := by
    simp [List.any_eq_true]
  constructor
  · intro hex
    have h1 : s.any (fun r => r.id == n) = true := hany.mpr hex
    have hmem : ∀ r : Row, r ∈ (handle_delete_message n s).2 ↔ r ∈ s ∧ r.id ≠ n := by
      intro r
      simp [handle_delete_message, h1, List.mem_filter]
    have hfilter : ((s.filter (fun r => r.id != n)).any (fun r => r.id == n)) = false := by
      rw [Bool.eq_false_iff]
      intro hco
      rcases List.any_eq_true.mp hco with ⟨r, hr, hpr⟩
      rcases List.mem_filter.mp hr with ⟨_, hne⟩
      rw [beq_iff_eq] at hpr
      rw [bne_iff_ne] at hne
      exact hne hpr
    refine ⟨by simp [handle_delete_message, h1], hmem, ?_, ?_⟩
    · intro r hr
      have hrs : r ∈ (handle_delete_message n s).2 := by
        unfold listRows at hr
        exact mem_sortByTsDesc.mp ((List.take_sublist _ _).subset hr)
      exact ((hmem r).mp hrs).2
    · simp [handle_delete_message, h1, hfilter]
  · intro hne
    have h1 : s.any (fun r => r.id == n) = false := by
      rw [Bool.eq_false_iff]
      exact fun hco => hne (hany.mp hco)
    simp [handle_delete_message, h1]

theorem claim6_witness :
    ((handle_delete_message 1 demoStore).1 =
        .json 200 (.obj [("deleted", .num (1 : Int))])
      ∧ ((⟨2, "b", "decision", 7⟩ : Row) ∈ (handle_delete_message 1 demoStore).2 ↔
          (⟨2, "b", "decision", 7⟩ : Row) ∈ demoStore ∧ (2 : Nat) ≠ 1)
      ∧ handle_delete_message 1 (handle_delete_message 1 demoStore).2 =
          (errResp "Message not found" 404, (handle_delete_message 1 demoStore).2))
    ∧ handle_delete_message 99 demoStore = (errResp "Message not found" 404, demoStore) := by
  have h1 := (claim6_theorem 1 demoStore none).1
    ⟨⟨1, "a", "insight", 3⟩, by decide, rfl⟩
  have h2 := (claim6_theorem 99 demoStore none).2 (by decide)
  exact ⟨⟨h1.1, h1.2.1 _, h1.2.2.2⟩, h2⟩

/-- C8 (confirmed): a create whose JSON-object body carries a string
`content` that is non-empty after trimming and a `type` in the valid set
answers 201 with the stored record — the submitted content verbatim
(untrimmed), the submitted type, and the store-generated id and
timestamp — and a list right after (with a limit large enough to show the
whole table) includes that row with those same field values. -/
theorem claim8_theorem (fields : List (String × JsonVal)) (c ty : String)
    (now : Nat) (s : Store) (q : Option String)
    (hcF : pyGet (.obj fields) "content" = .ok (.str c))
    (htF : pyGet (.obj fields) "type" = .ok (.str ty))
    (hc : pyStripEmpty c = false)
    (hty : ty ∈ validTypes)
    (hlim : s.length + 1 ≤ (effectiveLimit q).toNat) :
    handle_create_message (.json (.obj fields)) now s =
      (.json 201 (rowJson ⟨nextId s, c, ty, now⟩), s ++ [⟨nextId s, c, ty, now⟩])
    ∧ (⟨nextId s, c, ty, now⟩ : Row) ∈ listRows q (s ++ [⟨nextId s, c, ty, now⟩]) := by
  refine ⟨create_success fields c ty now s hcF htF hc hty, ?_⟩
  rw [listRows, List.take_of_length_le]
  · exact mem_sortByTsDesc.mpr (by simp)
  · rw [length_sortByTsDesc]
    simpa using hlim

theorem claim8_witness :
    handle_create_message
        (.json (.obj [("content", .str " hi "), ("type", .str "observation")])) 4 demoStore =
      (.json 201 (rowJson ⟨nextId demoStore, " hi ", "observation", 4⟩),
        demoStore ++ [⟨nextId demoStore, " hi ", "observation", 4⟩])
    ∧ (⟨nextId demoStore, " hi ", "observation", 4⟩ : Row) ∈
        listRows none (demoStore ++ [⟨nextId demoStore, " hi ", "observation", 4⟩]) :=
  claim8_theorem [("content", .str " hi "), ("type", .str "observation")]
    " hi " "observation" 4 demoStore none rfl rfl (by decide) (by decide) (by decide)

/-- C9 (confirmed): after a successful create whose timestamp strictly
exceeds every timestamp already stored (the created message is the most
recent), a list request with `limit=1` returns exactly the just-created
row as the sole entry. -/
theorem claim9_theorem (fields : List (String × JsonVal)) (c ty : String)
    (now : Nat) (s : Store)
    (hcF : pyGet (.obj fields) "content" = .ok (.str c))
    (htF : pyGet (.obj fields) "type" = .ok (.str ty))
    (hc : pyStripEmpty c = false)
    (hty : ty ∈ validTypes)
    (hrec : ∀ r ∈ s, r.timestamp < now) :
    listRows (some "1") (handle_create_message (.json (.obj fields)) now s).2 =
      [⟨nextId s, c, ty, now⟩] := by
  rw [create_success fields c ty now s hcF htF hc hty]
  show listRows (some "1") (s ++ [⟨nextId s, c, ty, now⟩]) = _
  rw [listRows, sortByTsDesc_append_recent _ _ hrec]
  rfl

theorem claim9_witness :
    listRows (some "1")
        (handle_create_message
          (.json (.obj [("content", .str "x"), ("type", .str "insight")])) 9 demoStore).2 =
      [⟨nextId demoStore, "x", "insight", 9⟩] :=
  claim9_theorem [("content", .str "x"), ("type", .str "insight")] "x" "insight" 9 demoStore
    rfl rfl (by decide) (by decide) (by decide)

/-- C10 (confirmed): a create whose JSON-object body has both required keys
and a valid type but a truthy non-string `content` (here the number 123)
is answered with the 500 internal-error envelope, not a 400 validation
error: `content.strip()` raises `AttributeError`, caught by the
handler's generic `except Exception` clause. -/
theorem claim10_theorem :
    handle_create_message
        (.json (.obj [("content", .num 123), ("type", .str "insight")])) 0 [] =
      (internalErr "object has no attribute strip", [])
    ∧ (handle_create_message
        (.json (.obj [("content", .num 123), ("type", .str "insight")])) 0 []).1.statusOf = 500
    ∧ errMsgOf (handle_create_message
        (.json (.obj [("content", .num 123), ("type", .str "insight")])) 0 []).1 =
        some "Internal server error: object has no attribute strip"
    ∧ (handle_create_message
        (.json (.obj [("content", .num 123), ("type", .str "insight")])) 0 []).1.statusOf ≠ 400 := by
  refine ⟨rfl, rfl, by decide, by decide⟩
